import Mathlib

/-!
Verification development for the EmbeddedEnterprises/service library
(robµlab convenience wrapper for WAMP microservices), shallowly embedded
from `lib.go` (the current, nexus-client based revision).

Go values appearing in WAMP dictionaries and argument lists are embedded
as the inductive `Value`.  Go `error` interface values, as produced and
consumed by this library, are embedded as `GoError`.  Machine `int64`
durations are embedded as `Nat` nanoseconds (all durations in this code
are non-negative).
-/

namespace ServiceLib

/-- Dynamic values (`interface{}` / `wamp.Dict` entries / `wamp.List`
entries) as far as this library inspects them. -/
inductive Value where
  | vint (n : Int)
  | vstr (s : String)
  | vbool (b : Bool)
  | vlist (xs : List Value)
  | vdict (xs : List (String × Value))
deriving Repr

/-- `wamp.Dict` — a Go map from string keys to dynamic values, embedded
as an association list. -/
def Dict : Type := List (String × Value)

/-- `wamp.List`. -/
def WList : Type := List Value

/-- The fields of nexus `wamp.Error` that this library reads: only the
error URI (the `Error` field).  The other fields (request id, details,
arguments) are never inspected by the wrapper. -/
structure WampError where
  errorURI : String
deriving Repr, DecidableEq

/-- nexus `client.RPCError`: `Err *wamp.Error; Procedure string`.
The pointer is embedded as `Option`: `none` is a nil pointer. -/
structure RPCError where
  Err : Option WampError
  Procedure : String
deriving Repr, DecidableEq

/-- A Go `error` value as far as this library distinguishes them: either
some generic error (anything that is not a `client.RPCError`), or a
`client.RPCError`. -/
inductive GoError where
  | generic (msg : String)
  | rpc (e : RPCError)
deriving Repr, DecidableEq

/-- nexus `client.InvokeResult`: `Args wamp.List; Kwargs wamp.Dict;
Err wamp.URI`.  Go zero values: nil slice, nil map, empty string. -/
structure InvokeResult where
  Args : List Value := []
  Kwargs : List (String × Value) := []
  Err : String := ""

/-- `ReturnValue` constructs a wamp response which contains just one
arbitrary value (lib.go): `&client.InvokeResult{Args: wamp.List{value}}`. -/
def ReturnValue (value : Value) : InvokeResult :=
  { Args := [value] }

/-- `ReturnError` constructs a wamp response which contains an error with
the specified URI (lib.go): `&client.InvokeResult{Err: wamp.URI(uri)}`. -/
def ReturnError (uri : String) : InvokeResult :=
  { Err := uri }

/-- `ReturnEmpty` constructs an empty wamp response (lib.go):
`&client.InvokeResult{}`. -/
def ReturnEmpty : InvokeResult :=
  ({} : InvokeResult)

/-- `IsRPCError` (lib.go): `_, ok := err.(client.RPCError); return ok`. -/
def IsRPCError (err : GoError) : Bool :=
  match err with
  | .rpc _ => true
  | _ => false

/-- `IsSpecificRPCError` (lib.go):
`rpc, ok := err.(client.RPCError); return ok && rpc.Err.Error == uri`.
The Go `&&` operator short-circuits, so when the type assertion fails the field
`rpc.Err` is never dereferenced and the result is `false`; when it
succeeds and `rpc.Err` is a nil pointer, the dereference panics, embedded
here as `none`. -/
def IsSpecificRPCError (err : GoError) (uri : String) : Option Bool :=
  match err with
  | .rpc rpc =>
    match rpc.Err with
    | some w => some (w.errorURI == uri)
    | none => none
  | _ => some false

/-- `wamp.ID` (a session identifier, an integer). -/
def WampID : Type := Int

/-- `CallerID` (lib.go): caller session id, username and role list, with
`mapstructure` tags `caller`, `caller_authid`, `caller_authrole`. -/
structure CallerID where
  Session : Int
  Username : String
  Role : List String
deriving Repr, DecidableEq

/-- Modelled from the `mitchellh/mapstructure` dependency
(`WeakDecode` into an integer-typed field, with `WeaklyTypedInput`
conversions): integers pass through, booleans convert to 1/0, numeric
strings parse, and composite values (lists, dictionaries) fail. -/
def weakToInt : Value → Option Int
  | .vint n => some n
  | .vbool b => some (if b then 1 else 0)
  | .vstr s => s.toInt?
  | .vlist _ => none
  | .vdict _ => none

/-- Modelled from the `mitchellh/mapstructure` dependency
(`WeakDecode` into a string field): strings pass through, integers and
booleans render, and composite values fail. -/
def weakToString : Value → Option String
  | .vstr s => some s
  | .vint n => some (toString n)
  | .vbool b => some (if b then "1" else "0")
  | .vlist _ => none
  | .vdict _ => none

/-- Modelled from the `mitchellh/mapstructure` dependency: decoding a
list value into a `[]string` field converts each element weakly to a
string; a non-list value fails. -/
def weakToStringList : Value → Option (List String)
  | .vlist xs => weakElems xs
  | _ => none
where
  weakElems : List Value → Option (List String)
    | [] => some []
    | v :: vs =>
      match weakToString v, weakElems vs with
      | some s, some ss => some (s :: ss)
      | _, _ => none

/-- Association-list lookup standing for a Go map read. -/
def dictLookup (key : String) : List (String × Value) → Option Value
  | [] => none
  | (k, v) :: rest => if k = key then some v else dictLookup key rest

/-- Decoding of one tagged struct field by `mapstructure.WeakDecode`: a
missing key leaves the zero value, a present key must convert. -/
def decodeField {α : Type} (d : List (String × Value)) (key : String)
    (conv : Value → Option α) (zero : α) : Except String α :=
  match dictLookup key d with
  | none => .ok zero
  | some v =>
    match conv v with
    | some a => .ok a
    | none => .error ("cannot decode value for key " ++ key)

/-- `ParseCallerID` (lib.go): builds a fresh `CallerID` and runs
`mapstructure.WeakDecode(details, c)`; on any decode error it returns
`(nil, err)`, otherwise `(c, nil)`.  The decode fills the three tagged
fields `caller`, `caller_authid`, `caller_authrole` from the details
dictionary, leaving Go zero values for missing keys. -/
def ParseCallerID (details : List (String × Value)) : Except String CallerID :=
  match decodeField details "caller" weakToInt 0 with
  | .error e => .error e
  | .ok session =>
    match decodeField details "caller_authid" weakToString "" with
    | .error e => .error e
    | .ok username =>
      match decodeField details "caller_authrole" weakToStringList [] with
      | .error e => .error e
      | .ok role =>
        .ok { Session := session, Username := username, Role := role }

/-- `RegistrationError` (lib.go): the procedure name that failed to
register together with the inner error. -/
structure RegistrationError where
  ProcedureName : String
  Inner : GoError
deriving Repr, DecidableEq

/-- `SubscriptionError` (lib.go): the topic that failed to subscribe
together with the inner error. -/
structure SubscriptionError where
  Topic : String
  Inner : GoError
deriving Repr, DecidableEq

/-- The behaviour of the `Register` operation of the underlying nexus client and
`Subscribe` calls, abstracted as a function from the procedure or topic
name to the outcome (`none` = success, `some e` = the error returned).
Handlers and option dictionaries are opaque to `RegisterAll` and
`SubscribeAll` and are not part of the outcome. -/
def ClientCalls : Type := String → Option GoError

/-- `RegisterAll` (lib.go): iterates over the procedure map and calls
`srv.Client.Register(name, ...)` for each entry; at the first failing
call it returns a `RegistrationError` holding that name and the inner
error, otherwise it returns nil after exhausting the map.  The Go map is
embedded as the list of its entries in iteration order; entries carry
only their name here since handler and options do not influence the
result. -/
def RegisterAll (register : ClientCalls) : List String → Option RegistrationError
  | [] => none
  | name :: rest =>
    match register name with
    | some err => some { ProcedureName := name, Inner := err }
    | none => RegisterAll register rest

/-- `SubscribeAll` (lib.go): same shape as `RegisterAll`, over topics and
`srv.Client.Subscribe`. -/
def SubscribeAll (subscribe : ClientCalls) : List String → Option SubscriptionError
  | [] => none
  | topic :: rest =>
    match subscribe topic with
    | some err => some { Topic := topic, Inner := err }
    | none => SubscribeAll subscribe rest

/-- The sequence of names on which `RegisterAll`/`SubscribeAll` invoke the
underlying client: every entry up to and including the first failing one
(read off the same loop as `RegisterAll`). -/
def batchCallSequence (call : ClientCalls) : List String → List String
  | [] => []
  | name :: rest =>
    match call name with
    | some _ => [name]
    | none => name :: batchCallSequence call rest

/-- Events observed by the `select` of the ping goroutine: the close channel
fires, or the ticker delivers a tick whose subsequent `Call` either
succeeds or fails (a timeout surfaces as a failed call). -/
inductive PingEvent where
  | closeSignal
  | tick (callFails : Bool)
deriving Repr, DecidableEq

/-- Observable actions of the ping goroutine. -/
inductive PingAction where
  | startTicker (periodNs : Nat)
  | call (endpoint : String) (timeoutNs : Nat)
  | closeClient
deriving Repr, DecidableEq

/-- Body of `runPing` (lib.go) after `time.NewTicker(srv.pingInterval)`:
on the close signal it stops; on a tick it calls `srv.pingEndpoint` under
a context with timeout `srv.pingInterval`, and if the call fails it logs,
closes the client and stops.  The argument list is the linearised
sequence of `select` outcomes. -/
def runPingLoop (endpoint : String) (intervalNs : Nat) :
    List PingEvent → List PingAction
  | [] => []
  | .closeSignal :: _ => []
  | .tick fails :: rest =>
    PingAction.call endpoint intervalNs ::
      (if fails then [PingAction.closeClient]
       else runPingLoop endpoint intervalNs rest)

/-- `runPing` (lib.go): creates the ticker with period `srv.pingInterval`
and enters the loop. -/
def runPing (endpoint : String) (intervalNs : Nat)
    (events : List PingEvent) : List PingAction :=
  PingAction.startTicker intervalNs :: runPingLoop endpoint intervalNs events

/-- The event that wakes the `select` in `Run`: an OS interrupt on the signal
channel, or the `Done()` channel of the client reporting the connection
closed. -/
inductive RunWake where
  | sigint
  | connLost
deriving Repr, DecidableEq

/-- Observable actions of `Run`. -/
inductive RunAction where
  | startPingTask
  | selectWoke (w : RunWake)
  | closePingChannel
  | closeClient
deriving Repr, DecidableEq

/-- `Run` (lib.go): defers `srv.Client.Close()`, starts `go
srv.runPing(pingClose)` when `srv.pingEnabled`, blocks in a `select` on
the SIGINT channel and `srv.Client.Done()`, and after waking closes the
`pingClose` channel and returns (running the deferred close).  `woke`
names whichever of the two events arrived first. -/
def Run (pingEnabled : Bool) (woke : RunWake) : List RunAction :=
  (if pingEnabled then [RunAction.startPingTask] else []) ++
    [RunAction.selectWoke woke, RunAction.closePingChannel,
     RunAction.closeClient]

/-! ### Exit codes (lib.go `const` block) -/

/-- ExitSuccess indicates that the service terminated without an error. -/
def ExitSuccess : Nat := 0

/-- ExitArgument indicates that the service terminated early as an
argument was missing or malformed. -/
def ExitArgument : Nat := 1

/-- ExitService indicates an unhandled, unrecoverable error. -/
def ExitService : Nat := 2

/-- ExitConnect indicates that the service failed to connect. -/
def ExitConnect : Nat := 3

/-- ExitRegistration indicates a failed registration or subscription. -/
def ExitRegistration : Nat := 4

/-- One second in nanoseconds (`time.Second`). -/
def second : Nat := 1000000000

/-- Nanoseconds per Go duration unit (`time.ParseDuration` unit map,
without the `µs`/`μs` aliases, which none of the inputs here use). -/
def durUnitNanos : String → Option Nat
  | "ns" => some 1
  | "us" => some 1000
  | "ms" => some 1000000
  | "s" => some 1000000000
  | "m" => some 60000000000
  | "h" => some 3600000000000
  | _ => none

/-- Decimal digit run to a number. -/
def digitsToNat (ds : List Char) : Nat :=
  ds.foldl (fun acc c => acc * 10 + (c.toNat - 48)) 0

/-- Component loop of the duration parser: a sequence of
`<digits><unit>` components, summed in nanoseconds.  The fuel argument
bounds recursion by the input length. -/
def parseDurGo : Nat → List Char → Option Nat
  | _, [] => some 0
  | 0, _ => none
  | fuel + 1, cs =>
    let ds := cs.takeWhile Char.isDigit
    let rest := cs.dropWhile Char.isDigit
    if ds.isEmpty then none
    else
      let us := rest.takeWhile Char.isAlpha
      let rest2 := rest.dropWhile Char.isAlpha
      match durUnitNanos (String.mk us) with
      | none => none
      | some mult =>
        match parseDurGo fuel rest2 with
        | none => none
        | some n => some (digitsToNat ds * mult + n)

/-- Modelled from the Go standard library function `time.ParseDuration`
(external to this repository), restricted to unsigned integer components
with a unit suffix (`"0"`, `"10s"`, `"1h30m"`, `"500ms"`, …): the empty
string and strings without a leading number or with an unknown unit are
invalid. -/
def parseDuration (s : String) : Option Nat :=
  if s = "0" then some 0
  else if s = "" then none
  else parseDurGo s.length s.data

/-- Serializations offered by nexus `transport/serialize`. -/
inductive Serialization where
  | json
  | msgpack
  | cbor
deriving Repr, DecidableEq

/-- `Config` (lib.go, current revision): describes the service for
`--version`/`--help`.  It carries no broker URL, realm, username or
password. -/
structure Config where
  Name : String := ""
  Version : String := ""
  Description : String := ""
  Serialization : Serialization := Serialization.json
deriving Repr, DecidableEq

/-- The command line as seen by `pflag`: for each flag registered by
`New`, whether it was given on the command line and with which value
(`none` = not given, so the flag evaluates to its registered default). -/
structure Flags where
  version : Bool := false
  brokerURL : Option String := none
  user : Option String := none
  password : Option String := none
  realm : Option String := none
  tlsClientCertFile : Option String := none
  tlsClientKeyFile : Option String := none
  tlsServerCertFile : Option String := none
  connectTimeout : Option String := none
  pingEnable : Option Bool := none
  pingEndpoint : Option String := none
  pingInterval : Option String := none
deriving Repr, DecidableEq

/-- The process environment read by `New` and `setupLogger`:
`os.Getenv` yields `""` for unset variables, so those are plain strings;
`SERVICE_ENABLE_PING` is read with `os.LookupEnv` (presence only). -/
structure Env where
  username : String := ""
  password : String := ""
  logFormat : String := ""
  brokerURL : String := ""
  realm : String := ""
  connectTimeout : String := ""
  tlsClientCert : String := ""
  tlsClientKey : String := ""
  tlsServerCert : String := ""
  pingEnabledSet : Bool := false
  pingInterval : String := ""
  pingEndpoint : String := ""
deriving Repr, DecidableEq

/-- The file-system facts `New` consults: `os.Stat` existence,
`ioutil.ReadFile` success, `x509.CertPool.AppendCertsFromPEM` success,
and `tls.LoadX509KeyPair` success. -/
structure Fs where
  fileOK : String → Bool
  readFileOK : String → Bool
  pemOK : String → Bool
  keyPairOK : String → String → Bool

/-- `Service` (lib.go, current revision).  The certificate pointers
`serverCert`/`clientCert` are embedded by whether they are non-nil. -/
structure Service where
  name : String
  serialization : Serialization
  realm : String
  url : String
  username : String
  password : String
  pingEnabled : Bool
  pingInterval : Nat
  pingEndpoint : String
  useAuth : Bool
  useTLS : Bool
  hasServerCert : Bool
  hasClientCert : Bool
  timeout : Nat
deriving Repr, DecidableEq

/-- Modelled from the Go standard library function `strings.ToLower`
(character-wise lowercasing), written structurally over the character
list. -/
def toLowerStr (s : String) : String :=
  String.mk (s.data.map Char.toLower)

/-- Modelled from the Go standard library function `strings.HasPrefix`,
written structurally over the character lists. -/
def startsWithStr (s pre : String) : Bool :=
  pre.data.isPrefixOf s.data

/-- The log-format values accepted by `setupLogger` (lib.go): `""`,
`human`, `debug` (human readable) and `k8s`, `cluster`, `machine`
(machine readable), case insensitive; anything else exits with
`ExitArgument`. -/
def logFormatValid (envLogFormat : String) : Bool :=
  let l := toLowerStr envLogFormat
  l = "" || l = "human" || l = "debug" || l = "k8s" || l = "cluster" || l = "machine"

/-- `setupLogger` (lib.go), reduced to its exit behaviour: logger
creation and formatter construction are assumed to succeed (their
failures depend only on the internals of the logging library), so the only
exit is the invalid log format. -/
def setupLogger (env : Env) : Except Nat Unit :=
  if logFormatValid env.logFormat then .ok () else .error ExitArgument

/-- `ensureFileExists` (lib.go): exits with `ExitArgument` when the
named file does not exist. -/
def ensureFileExists (fs : Fs) (fname : String) : Except Nat Unit :=
  if fs.fileOK fname then .ok () else .error ExitArgument

/-- The effective value of a string flag whose registered default is an
environment variable (pflag: the given value wins, otherwise the
default). -/
def resolveFlag (flagValue : Option String) (envValue : String) : String :=
  flagValue.getD envValue

/-- Server-certificate part of the `wss://` branch of `New` (lib.go): an
empty `--tls-server-cert-file` disables verification; otherwise the file
must exist, be readable and contain an importable certificate, each
failure exiting with `ExitArgument`. -/
def configureServerCert (fs : Fs) (cliSCF : String) (srv : Service) :
    Except Nat Service :=
  if cliSCF = "" then .ok srv
  else if ¬ fs.fileOK cliSCF then .error ExitArgument
  else if ¬ fs.readFileOK cliSCF then .error ExitArgument
  else if ¬ fs.pemOK cliSCF then .error ExitArgument
  else .ok { srv with hasServerCert := true }

/-- Ticket-or-anonymous authentication selection (lib.go, both the
`wss://` fallback and the plain branch): an empty username or password
disables authentication, and both fields are stored either way. -/
def configureTicketAuth (cliUsr cliPwd : String) (srv : Service) :
    Service :=
  let srv1 :=
    if cliUsr = "" ∨ cliPwd = "" then { srv with useAuth := false }
    else srv
  { srv1 with username := cliUsr, password := cliPwd }

/-- Client-certificate part of the `wss://` branch (lib.go): with cert
or key flag missing, fall back to ticket authentication; otherwise both
files must exist and load as a key pair, each failure exiting with
`ExitArgument`. -/
def configureClientCert (fs : Fs) (cliUsr cliPwd cliCCF cliCKF : String)
    (srv : Service) : Except Nat Service :=
  if cliCCF = "" ∨ cliCKF = "" then
    .ok (configureTicketAuth cliUsr cliPwd
      { srv with hasClientCert := false })
  else
    if ¬ fs.fileOK cliCCF then .error ExitArgument
    else if ¬ fs.fileOK cliCKF then .error ExitArgument
    else if ¬ fs.keyPairOK cliCCF cliCKF then .error ExitArgument
    else .ok { srv with hasClientCert := true }

/-- TLS and authentication selection of `New` (lib.go): under `wss://`
the server certificate is processed, then either TLS client-certificate
authentication (username/password fields are left untouched) or ticket
authentication.  Without `wss://` only ticket/anonymous selection
happens. -/
def configureTLSAndAuth (fs : Fs)
    (cliUsr cliPwd cliCCF cliCKF cliSCF : String) (srv0 : Service) :
    Except Nat Service :=
  if startsWithStr srv0.url "wss://" then
    match configureServerCert fs cliSCF { srv0 with useTLS := true } with
    | .error code => .error code
    | .ok srv2 => configureClientCert fs cliUsr cliPwd cliCCF cliCKF srv2
  else
    .ok (configureTicketAuth cliUsr cliPwd srv0)

/-- The freshly allocated service of `New` (lib.go) before the checks:
`srv := &Service{}`, name defaulting to `example`, serialization taken
from the config, ping enabled with endpoint `ee.ping` every ten
seconds.  Go zero values fill the remaining fields. -/
def newBaseService (defaultConfig : Config) : Service :=
  { name :=
      if defaultConfig.Name = "" then "example" else defaultConfig.Name
    serialization := defaultConfig.Serialization
    realm := "", url := "", username := "", password := ""
    pingEnabled := true, pingInterval := 10 * second
    pingEndpoint := "ee.ping", useAuth := false, useTLS := false
    hasServerCert := false, hasClientCert := false, timeout := 0 }

/-- The ping-configuration steps of `New` (lib.go): `!*pingEnable`
disables ping, a non-empty `--ping-endpoint` overrides the default, and
an unparsable or sub-second `--ping-interval` falls back to ten seconds
with a warning (no exit). -/
def applyPingConfig (pingEnable : Bool)
    (pingEndpointFlag pingIntervalFlag : String) (srv : Service) :
    Service :=
  let srv1 := if ¬ pingEnable then { srv with pingEnabled := false } else srv
  let srv2 :=
    if pingEndpointFlag ≠ "" then { srv1 with pingEndpoint := pingEndpointFlag }
    else srv1
  match parseDuration pingIntervalFlag with
  | none => { srv2 with pingInterval := 10 * second }
  | some d =>
    if d < 1 * second then { srv2 with pingInterval := 10 * second }
    else { srv2 with pingInterval := d }

/-- `New` (lib.go, current revision), as a function of the default
config, the command line, the environment and the file system;
`os.Exit(code)` is embedded as `.error code`.  Flag defaults are the
corresponding environment variables, read at registration time;
`--version` prints and exits with `ExitSuccess`; empty broker URL or
realm, an invalid log format, an invalid `--connect-timeout` and TLS
file problems exit with `ExitArgument`; an invalid or sub-second
`--ping-interval` only logs a warning and falls back to ten seconds. -/
def New (defaultConfig : Config) (fl : Flags) (env : Env) (fs : Fs) :
    Except Nat Service :=
  let cliURL := resolveFlag fl.brokerURL env.brokerURL
  let cliUsr := resolveFlag fl.user env.username
  let cliPwd := resolveFlag fl.password env.password
  let cliRlm := resolveFlag fl.realm env.realm
  let cliCCF := resolveFlag fl.tlsClientCertFile env.tlsClientCert
  let cliCKF := resolveFlag fl.tlsClientKeyFile env.tlsClientKey
  let cliSCF := resolveFlag fl.tlsServerCertFile env.tlsServerCert
  let cliTimeout := resolveFlag fl.connectTimeout env.connectTimeout
  let pingEnable := fl.pingEnable.getD env.pingEnabledSet
  let pingEndpointFlag := resolveFlag fl.pingEndpoint env.pingEndpoint
  let pingIntervalFlag := resolveFlag fl.pingInterval env.pingInterval
  if fl.version then .error ExitSuccess
  else
    match setupLogger env with
    | .error code => .error code
    | .ok _ =>
      if cliURL = "" then .error ExitArgument
      else if cliRlm = "" then .error ExitArgument
      else
        let srv := applyPingConfig pingEnable pingEndpointFlag
          pingIntervalFlag (newBaseService defaultConfig)
        let srv := { srv with url := cliURL, realm := cliRlm }
        match parseDuration cliTimeout with
        | none => .error ExitArgument
        | some t =>
          let timeout := if t ≠ 0 ∧ t < 1 * second then 1 * second else t
          configureTLSAndAuth fs cliUsr cliPwd cliCCF cliCKF cliSCF
            { srv with timeout := timeout, useAuth := true }

/-- One command line flag definition: long name and one-letter shorthand
(empty when the flag has none). -/
structure FlagSpec where
  longName : String
  shorthand : String
deriving Repr, DecidableEq

/-- The flags `New` registers, in source order (lib.go):
`BoolP("version", "V")`, `StringP("broker-url", "b")`,
`StringP("user", "u")`, `StringP("password", "p")`,
`StringP("realm", "r")`, `String("tls-client-cert-file")`,
`String("tls-client-key-file")`, `String("tls-server-cert-file")`,
`String("connect-timeout")`, `Bool("ping-enable")`,
`String("ping-endpoint")`, `String("ping-interval")`. -/
def newFlags : List FlagSpec :=
  [⟨"version", "V"⟩, ⟨"broker-url", "b"⟩, ⟨"user", "u"⟩,
   ⟨"password", "p"⟩, ⟨"realm", "r"⟩, ⟨"tls-client-cert-file", ""⟩,
   ⟨"tls-client-key-file", ""⟩, ⟨"tls-server-cert-file", ""⟩,
   ⟨"connect-timeout", ""⟩, ⟨"ping-enable", ""⟩, ⟨"ping-endpoint", ""⟩,
   ⟨"ping-interval", ""⟩]

/-- Modelled from the spec (claim C7 wording): the thirteen flag names
the spec says `New` defines. -/
def claimedFlagNames : List String :=
  ["version", "serialization", "broker-url", "user", "password", "realm",
   "tls-client-cert-file", "tls-client-key-file", "tls-server-cert-file",
   "connect-timeout", "ping-enable", "ping-endpoint", "ping-interval"]

/-- Modelled from the spec (claim C1 wording): resolution of one
configuration value with the precedence command-line flag, then
environment variable, then a caller-supplied default. -/
def resolveWithCallerDefault (flagValue : Option String)
    (envValue : String) (callerDefault : String) : String :=
  match flagValue with
  | some v => v
  | none => if envValue ≠ "" then envValue else callerDefault

/-- A file system on which every check fails (no files exist). -/
def noFs : Fs :=
  ⟨fun _ => false, fun _ => false, fun _ => false, fun _ _ => false⟩

/-- Sample command line: valid broker URL, realm and timeout, but an
invalid `--ping-interval`. -/
def flBadPing : Flags :=
  { brokerURL := some "ws://broker", realm := some "robulab",
    connectTimeout := some "0s", pingInterval := some "bogus" }

/-- Sample command line: valid ticket-auth configuration. -/
def flTicket : Flags :=
  { brokerURL := some "ws://b", realm := some "r",
    connectTimeout := some "0s", user := some "alice",
    password := some "pw" }

/-- A client on which exactly the name `"bad"` fails. -/
def sampleCalls : ClientCalls :=
  fun n => if n = "bad" then some (GoError.generic "boom") else none

/-- The valid caller details dictionary from the unit tests of the
repository (lib_test.go, `TestCallerIDParse`). -/
def sampleDetails : List (String × Value) :=
  [("caller", Value.vint 12345), ("caller_authid", Value.vstr "foo"),
   ("caller_authrole",
     Value.vlist [Value.vstr "trusted", Value.vstr "admin"])]

/-- The invalid caller details dictionary from the unit tests of the
repository (lib_test.go, `TestInvalidParse`): `caller_authid` is bound
to a nested dictionary. -/
def invalidDetails : List (String × Value) :=
  [("caller", Value.vbool true),
   ("caller_authid", Value.vdict [("invalid", Value.vstr "true")])]

/-- The service produced by `New` for `flTicket` with an empty
environment. -/
def serviceTicket : Service :=
  { name := "example", serialization := Serialization.json, realm := "r",
    url := "ws://b", username := "alice", password := "pw",
    pingEnabled := false, pingInterval := 10 * second,
    pingEndpoint := "ee.ping", useAuth := true, useTLS := false,
    hasServerCert := false, hasClientCert := false, timeout := 0 }

/-- Sample command line overriding the ping endpoint and enabling
ping. -/
def flPingOverride : Flags :=
  { brokerURL := some "ws://b", realm := some "r",
    connectTimeout := some "0s", pingEndpoint := some "my.ping",
    pingEnable := some true }

/-- A file system on which exactly the file `/cc.pem` exists (used to
exhibit the missing-client-key exit of `New`). -/
def ccOnlyFs : Fs :=
  ⟨fun f => f == "/cc.pem", fun _ => false, fun _ => false,
   fun _ _ => false⟩

/-- The service produced by `New` for `flPingOverride` with an empty
environment. -/
def servicePingOverride : Service :=
  { name := "example", serialization := Serialization.json, realm := "r",
    url := "ws://b", username := "", password := "",
    pingEnabled := true, pingInterval := 10 * second,
    pingEndpoint := "my.ping", useAuth := false, useTLS := false,
    hasServerCert := false, hasClientCert := false, timeout := 0 }

/-! ## Theorems for the claims -/

/-- C2: `ReturnEmpty()` yields no Args, no Kwargs and an empty Err; for
every value `v`, `ReturnValue v` has exactly the one-element argument
list `[v]`, no Kwargs and an empty Err; for every string `uri`,
`ReturnError uri` has Err equal to `uri`, no Args and no Kwargs. -/
theorem c2_return_helpers :
    (ReturnEmpty.Args = [] ∧ ReturnEmpty.Kwargs = [] ∧
      ReturnEmpty.Err = "") ∧
    (∀ v : Value, (ReturnValue v).Args = [v] ∧
      (ReturnValue v).Kwargs = [] ∧ (ReturnValue v).Err = "") ∧
    (∀ uri : String, (ReturnError uri).Err = uri ∧
      (ReturnError uri).Args = [] ∧ (ReturnError uri).Kwargs = []) := by
  exact ⟨⟨rfl, rfl, rfl⟩, fun _ => ⟨rfl, rfl, rfl⟩,
    fun _ => ⟨rfl, rfl, rfl⟩⟩

/-- C3: `IsRPCError e` is true exactly when `e` is a `client.RPCError`,
and `IsSpecificRPCError e uri` evaluates to true exactly when `e` is a
`client.RPCError` whose wrapped `wamp.Error` carries the URI `uri`. -/
theorem c3_rpc_error_classifier :
    (∀ e : GoError, IsRPCError e = true ↔ ∃ r, e = GoError.rpc r) ∧
    (∀ (e : GoError) (uri : String),
      IsSpecificRPCError e uri = some true ↔
        ∃ r w, e = GoError.rpc r ∧ r.Err = some w ∧ w.errorURI = uri) := by
  constructor
  · intro e
    cases e <;> simp [IsRPCError]
  · intro e uri
    cases e with
    | generic m => simp [IsSpecificRPCError]
    | rpc r =>
      cases h : r.Err with
      | none => simp [IsSpecificRPCError, h]
      | some w =>
        simp only [IsSpecificRPCError, h, Option.some.injEq, beq_iff_eq,
          GoError.rpc.injEq]
        constructor
        · intro hw
          exact ⟨r, w, rfl, h, hw⟩
        · rintro ⟨r', w', hr, herr, huri⟩
          subst hr
          rw [h] at herr
          cases herr
          exact huri

/-- C10: when `e` is a `client.RPCError` whose `Err` field is non-nil,
`IsSpecificRPCError e uri` is well defined and decides whether the
wrapped error URI equals `uri`; when the `Err` field is a nil pointer
the unguarded dereference panics (the call is outside the safe domain,
embedded as `none`). -/
theorem c10_specific_rpc_error_nil_safety :
    (∀ (r : RPCError) (w : WampError) (uri : String), r.Err = some w →
      IsSpecificRPCError (GoError.rpc r) uri = some (w.errorURI == uri)) ∧
    (∀ (r : RPCError) (uri : String), r.Err = none →
      IsSpecificRPCError (GoError.rpc r) uri = none) := by
  constructor
  · intro r w uri h
    simp [IsSpecificRPCError, h]
  · intro r uri h
    simp [IsSpecificRPCError, h]

/-- Witness for C10 at the concrete inputs of the unit tests. -/
theorem c10_specific_rpc_error_nil_safety_witness :
    IsSpecificRPCError
      (GoError.rpc ⟨some ⟨"wamp.error.no_such_realm"⟩, ""⟩)
      "wamp.error.no_such_realm" = some true ∧
    IsSpecificRPCError (GoError.rpc ⟨none, ""⟩) "wamp.error.no_such_realm"
      = none := by
  constructor
  · have h := c10_specific_rpc_error_nil_safety.1
      ⟨some ⟨"wamp.error.no_such_realm"⟩, ""⟩ ⟨"wamp.error.no_such_realm"⟩
      "wamp.error.no_such_realm" rfl
    simpa using h
  · exact c10_specific_rpc_error_nil_safety.2 ⟨none, ""⟩
      "wamp.error.no_such_realm" rfl

/-- Helper: a field whose key is present and converts decodes to that
value. -/
theorem decodeField_ok_of {α : Type} {d : List (String × Value)}
    {key : String} {conv : Value → Option α} {zero : α} {v : Value}
    {a : α} (h1 : dictLookup key d = some v) (h2 : conv v = some a) :
    decodeField d key conv zero = .ok a := by
  simp [decodeField, h1, h2]

/-- Helper: a field whose key is present but does not convert makes the
decode fail. -/
theorem decodeField_error_of {α : Type} {d : List (String × Value)}
    {key : String} {conv : Value → Option α} {zero : α} {v : Value}
    (h1 : dictLookup key d = some v) (h2 : conv v = none) :
    decodeField d key conv zero =
      .error ("cannot decode value for key " ++ key) := by
  simp [decodeField, h1, h2]

/-- C4: when the `caller`, `caller_authid` and `caller_authrole` entries
of the details dictionary convert (weakly) to a session id, a string and
a string list, `ParseCallerID` succeeds with exactly those three values;
when any of the three entries is present but type-mismatched (for
example `caller_authid` bound to a nested dictionary, which
`weakToString` rejects), it fails with an error. -/
theorem c4_parse_caller_id :
    (∀ (d : List (String × Value)) (v1 v2 v3 : Value) (s : Int)
        (u : String) (rs : List String),
      dictLookup "caller" d = some v1 → weakToInt v1 = some s →
      dictLookup "caller_authid" d = some v2 → weakToString v2 = some u →
      dictLookup "caller_authrole" d = some v3 →
      weakToStringList v3 = some rs →
      ParseCallerID d = .ok { Session := s, Username := u, Role := rs }) ∧
    (∀ (d : List (String × Value)) (v : Value),
      dictLookup "caller" d = some v → weakToInt v = none →
      ∃ msg, ParseCallerID d = .error msg) ∧
    (∀ (d : List (String × Value)) (v : Value),
      dictLookup "caller_authid" d = some v → weakToString v = none →
      ∃ msg, ParseCallerID d = .error msg) ∧
    (∀ (d : List (String × Value)) (v : Value),
      dictLookup "caller_authrole" d = some v →
      weakToStringList v = none →
      ∃ msg, ParseCallerID d = .error msg) := by
  refine ⟨?_, ?_, ?_, ?_⟩
  · intro d v1 v2 v3 s u rs h1 h2 h3 h4 h5 h6
    simp [ParseCallerID, decodeField_ok_of h1 h2, decodeField_ok_of h3 h4,
      decodeField_ok_of h5 h6]
  · intro d v h1 h2
    exact ⟨"cannot decode value for key caller",
      by simp [ParseCallerID, decodeField_error_of h1 h2]⟩
  · intro d v h1 h2
    cases hc : decodeField d "caller" weakToInt 0 with
    | error e => exact ⟨e, by simp [ParseCallerID, hc]⟩
    | ok s =>
      exact ⟨"cannot decode value for key caller_authid",
        by simp [ParseCallerID, hc, decodeField_error_of h1 h2]⟩
  · intro d v h1 h2
    cases hc : decodeField d "caller" weakToInt 0 with
    | error e => exact ⟨e, by simp [ParseCallerID, hc]⟩
    | ok s =>
      cases ha : decodeField d "caller_authid" weakToString "" with
      | error e => exact ⟨e, by simp [ParseCallerID, hc, ha]⟩
      | ok u =>
        exact ⟨"cannot decode value for key caller_authrole", by
          simp [ParseCallerID, hc, ha, decodeField_error_of h1 h2]⟩

/-- Witness for C4 at the dictionaries used by the unit tests of the
repository: the valid details parse to session 12345, username `foo`
and roles `trusted`, `admin`; the details binding `caller_authid` to a
nested dictionary fail. -/
theorem c4_parse_caller_id_witness :
    ParseCallerID sampleDetails =
      .ok { Session := 12345, Username := "foo",
            Role := ["trusted", "admin"] } ∧
    ∃ msg, ParseCallerID invalidDetails = .error msg := by
  constructor
  · exact c4_parse_caller_id.1 sampleDetails (Value.vint 12345)
      (Value.vstr "foo")
      (Value.vlist [Value.vstr "trusted", Value.vstr "admin"])
      12345 "foo" ["trusted", "admin"] rfl rfl rfl rfl rfl rfl
  · exact c4_parse_caller_id.2.2.1 invalidDetails
      (Value.vdict [("invalid", Value.vstr "true")]) rfl rfl

/-- C5: `RegisterAll` and `SubscribeAll` call the underlying client once
per map entry until the first failing call; on a failure they return a
typed error carrying that entry and the underlying error (not an exit
code — the process is not terminated); they return nil exactly when
every underlying call succeeds. -/
theorem c5_register_subscribe_all :
    (∀ (call : ClientCalls) (entries : List String),
      (RegisterAll call entries = none ↔ ∀ n ∈ entries, call n = none) ∧
      (SubscribeAll call entries = none ↔ ∀ n ∈ entries, call n = none)) ∧
    (∀ (call : ClientCalls) (entries : List String),
      (∀ n ∈ entries, call n = none) →
      batchCallSequence call entries = entries) ∧
    (∀ (call : ClientCalls) (pre rest : List String) (x : String)
        (err : GoError),
      (∀ n ∈ pre, call n = none) → call x = some err →
      batchCallSequence call (pre ++ x :: rest) = pre ++ [x] ∧
      RegisterAll call (pre ++ x :: rest) =
        some { ProcedureName := x, Inner := err } ∧
      SubscribeAll call (pre ++ x :: rest) =
        some { Topic := x, Inner := err }) := by
  refine ⟨?_, ?_, ?_⟩
  · intro call entries
    induction entries with
    | nil => simp [RegisterAll, SubscribeAll]
    | cons n rest ih =>
      cases hc : call n with
      | none =>
        constructor
        · rw [RegisterAll, hc]
          simp [hc, ih.1]
        · rw [SubscribeAll, hc]
          simp [hc, ih.2]
      | some e =>
        constructor
        · rw [RegisterAll, hc]
          simp [hc]
        · rw [SubscribeAll, hc]
          simp [hc]
  · intro call entries h
    induction entries with
    | nil => simp [batchCallSequence]
    | cons n rest ih =>
      have hn : call n = none := h n (by simp)
      rw [batchCallSequence, hn]
      rw [ih (fun m hm => h m (by simp [hm]))]
  · intro call pre rest x err hpre hx
    induction pre with
    | nil =>
      refine ⟨?_, ?_, ?_⟩
      · simp [batchCallSequence, hx]
      · simp [RegisterAll, hx]
      · simp [SubscribeAll, hx]
    | cons p ps ih =>
      have hp : call p = none := hpre p (by simp)
      have ihs := ih (fun m hm => hpre m (by simp [hm]))
      refine ⟨?_, ?_, ?_⟩
      · rw [List.cons_append, batchCallSequence, hp, ihs.1]
        simp
      · rw [List.cons_append, RegisterAll, hp, ihs.2.1]
      · rw [List.cons_append, SubscribeAll, hp, ihs.2.2]

/-- Witness for C5 on a concrete client failing exactly at `"bad"`. -/
theorem c5_register_subscribe_all_witness :
    RegisterAll sampleCalls ["a", "b"] = none ∧
    batchCallSequence sampleCalls ["a", "bad", "c"] = ["a", "bad"] ∧
    RegisterAll sampleCalls ["a", "bad", "c"] =
      some { ProcedureName := "bad", Inner := GoError.generic "boom" } ∧
    SubscribeAll sampleCalls ["a", "bad", "c"] =
      some { Topic := "bad", Inner := GoError.generic "boom" } := by
  have hall := (c5_register_subscribe_all.1 sampleCalls ["a", "b"]).1
  have hfail := c5_register_subscribe_all.2.2 sampleCalls ["a"] ["c"]
    "bad" (GoError.generic "boom")
    (by intro n hn; simp at hn; subst hn; rfl) rfl
  refine ⟨hall.mpr ?_, ?_, ?_, ?_⟩
  · intro n hn
    simp at hn
    rcases hn with h | h <;> subst h <;> rfl
  · simpa using hfail.1
  · simpa using hfail.2.1
  · simpa using hfail.2.2

/-- Helper for C8: a run of successful ticks produces one call per
tick. -/
theorem runPingLoop_all_ok (ep : String) (iv : Nat)
    (evs : List PingEvent) (h : ∀ e ∈ evs, e = PingEvent.tick false) :
    runPingLoop ep iv evs = evs.map (fun _ => PingAction.call ep iv) := by
  induction evs with
  | nil => rfl
  | cons e es ih =>
    have he : e = PingEvent.tick false := h e (by simp)
    subst he
    rw [runPingLoop]
    simp only [if_neg (by simp : ¬ (false = true))]
    rw [ih (fun m hm => h m (by simp [hm]))]
    rfl

/-- Helper for C8: the first failing call closes the client and stops
the loop; later events are never processed. -/
theorem runPingLoop_first_fail (ep : String) (iv : Nat)
    (pre rest : List PingEvent)
    (h : ∀ e ∈ pre, e = PingEvent.tick false) :
    runPingLoop ep iv (pre ++ PingEvent.tick true :: rest) =
      pre.map (fun _ => PingAction.call ep iv) ++
        [PingAction.call ep iv, PingAction.closeClient] := by
  induction pre with
  | nil =>
    rw [List.nil_append, runPingLoop]
    simp
  | cons p ps ih =>
    have hp : p = PingEvent.tick false := h p (by simp)
    subst hp
    rw [List.cons_append, runPingLoop]
    simp only [if_neg (by simp : ¬ (false = true))]
    rw [ih (fun m hm => h m (by simp [hm]))]
    rfl

/-- C8: when ping is enabled `Run` starts exactly one background ping
task (none otherwise); the task creates one timer with period
`pingInterval`; every tick issues one call to the ping endpoint with a
per-attempt timeout equal to `pingInterval`; as soon as one call fails,
the task closes the client connection and stops (events after the
failure are ignored). -/
theorem c8_ping_keepalive :
    (∀ woke : RunWake,
      (Run true woke).count RunAction.startPingTask = 1 ∧
      (Run false woke).count RunAction.startPingTask = 0) ∧
    (∀ (ep : String) (iv : Nat) (evs : List PingEvent),
      (∀ e ∈ evs, e = PingEvent.tick false) →
      runPing ep iv evs =
        PingAction.startTicker iv ::
          evs.map (fun _ => PingAction.call ep iv)) ∧
    (∀ (ep : String) (iv : Nat) (pre rest : List PingEvent),
      (∀ e ∈ pre, e = PingEvent.tick false) →
      runPing ep iv (pre ++ PingEvent.tick true :: rest) =
        PingAction.startTicker iv ::
          (pre.map (fun _ => PingAction.call ep iv) ++
            [PingAction.call ep iv, PingAction.closeClient])) := by
  refine ⟨?_, ?_, ?_⟩
  · intro woke
    cases woke <;> exact ⟨rfl, rfl⟩
  · intro ep iv evs h
    rw [runPing, runPingLoop_all_ok ep iv evs h]
  · intro ep iv pre rest h
    rw [runPing, runPingLoop_first_fail ep iv pre rest h]

/-- Witness for C8 on a concrete event sequence: two ticks, the second
failing, followed by an unprocessed close signal. -/
theorem c8_ping_keepalive_witness :
    (Run true RunWake.sigint).count RunAction.startPingTask = 1 ∧
    runPing "ee.ping" (10 * second)
        [PingEvent.tick false, PingEvent.tick true,
         PingEvent.closeSignal] =
      [PingAction.startTicker (10 * second),
       PingAction.call "ee.ping" (10 * second),
       PingAction.call "ee.ping" (10 * second),
       PingAction.closeClient] := by
  constructor
  · exact (c8_ping_keepalive.1 RunWake.sigint).1
  · have h := c8_ping_keepalive.2.2 "ee.ping" (10 * second)
      [PingEvent.tick false] [PingEvent.closeSignal]
      (by intro e he; simpa using he)
    simpa using h

/-- C9: `Run` waits for exactly one of two events — an OS interrupt or
the `Done` notification of the client — and on both paths it closes the
ping close-channel after waking and before returning (the channel close
is in the trace, after the wake). -/
theorem c9_run_shutdown :
    ∀ (pingEnabled : Bool) (woke : RunWake),
      (woke = RunWake.sigint ∨ woke = RunWake.connLost) ∧
      RunAction.closePingChannel ∈ Run pingEnabled woke ∧
      (Run pingEnabled woke).indexOf (RunAction.selectWoke woke) <
        (Run pingEnabled woke).indexOf RunAction.closePingChannel := by
  intro pe woke
  cases pe <;> cases woke <;> refine ⟨by simp, by decide, by decide⟩

/-- Helper: the server-certificate step never changes the connection,
credential or ping fields. -/
theorem configureServerCert_ok_fields (fs : Fs) (scf : String)
    (srv s : Service) (h : configureServerCert fs scf srv = .ok s) :
    s.url = srv.url ∧ s.realm = srv.realm ∧ s.username = srv.username ∧
    s.password = srv.password ∧ s.useAuth = srv.useAuth ∧
    s.hasClientCert = srv.hasClientCert ∧
    s.pingEnabled = srv.pingEnabled ∧
    s.pingInterval = srv.pingInterval ∧
    s.pingEndpoint = srv.pingEndpoint := by
  unfold configureServerCert at h
  split at h
  · rw [Except.ok.injEq] at h
    subst h
    exact ⟨rfl, rfl, rfl, rfl, rfl, rfl, rfl, rfl, rfl⟩
  · split at h
    · exact absurd h (by simp)
    · split at h
      · exact absurd h (by simp)
      · split at h
        · exact absurd h (by simp)
        · rw [Except.ok.injEq] at h
          subst h
          exact ⟨rfl, rfl, rfl, rfl, rfl, rfl, rfl, rfl, rfl⟩

/-- Helper: ticket/anonymous selection preserves url, realm, ping
settings and the client-certificate marker, and stores the given
credentials. -/
theorem configureTicketAuth_fields (u p : String) (srv : Service) :
    (configureTicketAuth u p srv).url = srv.url ∧
    (configureTicketAuth u p srv).realm = srv.realm ∧
    (configureTicketAuth u p srv).pingEnabled = srv.pingEnabled ∧
    (configureTicketAuth u p srv).pingInterval = srv.pingInterval ∧
    (configureTicketAuth u p srv).pingEndpoint = srv.pingEndpoint ∧
    (configureTicketAuth u p srv).hasClientCert = srv.hasClientCert ∧
    (configureTicketAuth u p srv).username = u ∧
    (configureTicketAuth u p srv).password = p := by
  unfold configureTicketAuth
  split <;> exact ⟨rfl, rfl, rfl, rfl, rfl, rfl, rfl, rfl⟩

/-- Helper: the client-certificate step preserves url, realm and ping
settings, and whenever the result has no TLS client certificate it
stores the given username and password. -/
theorem configureClientCert_ok_fields (fs : Fs)
    (u p ccf ckf : String) (srv s : Service)
    (h : configureClientCert fs u p ccf ckf srv = .ok s) :
    s.url = srv.url ∧ s.realm = srv.realm ∧
    s.pingEnabled = srv.pingEnabled ∧
    s.pingInterval = srv.pingInterval ∧
    s.pingEndpoint = srv.pingEndpoint ∧
    (s.hasClientCert = false → s.username = u ∧ s.password = p) := by
  unfold configureClientCert at h
  split at h
  · rw [Except.ok.injEq] at h
    subst h
    have hf := configureTicketAuth_fields u p
      { srv with hasClientCert := false }
    exact ⟨hf.1, hf.2.1, hf.2.2.1, hf.2.2.2.1, hf.2.2.2.2.1,
      fun _ => ⟨hf.2.2.2.2.2.2.1, hf.2.2.2.2.2.2.2⟩⟩
  · split at h
    · exact absurd h (by simp)
    · split at h
      · exact absurd h (by simp)
      · split at h
        · exact absurd h (by simp)
        · rw [Except.ok.injEq] at h
          subst h
          exact ⟨rfl, rfl, rfl, rfl, rfl,
            fun hfalse => absurd hfalse (by simp)⟩

/-- Helper: the TLS/authentication step preserves url, realm and ping
settings, and whenever the result has no TLS client certificate it has
the given username and password. -/
theorem configureTLSAndAuth_ok_fields (fs : Fs)
    (u p ccf ckf scf : String) (srv0 s : Service)
    (h : configureTLSAndAuth fs u p ccf ckf scf srv0 = .ok s) :
    s.url = srv0.url ∧ s.realm = srv0.realm ∧
    s.pingEnabled = srv0.pingEnabled ∧
    s.pingInterval = srv0.pingInterval ∧
    s.pingEndpoint = srv0.pingEndpoint ∧
    (s.hasClientCert = false → s.username = u ∧ s.password = p) := by
  unfold configureTLSAndAuth at h
  split at h
  · -- wss:// branch
    cases hsc : configureServerCert fs scf { srv0 with useTLS := true } with
    | error c =>
      rw [hsc] at h
      exact absurd h (by simp)
    | ok srv2 =>
      rw [hsc] at h
      have hf := configureServerCert_ok_fields _ _ _ _ hsc
      have hc := configureClientCert_ok_fields _ _ _ _ _ _ _ h
      exact ⟨hc.1.trans hf.1, hc.2.1.trans hf.2.1,
        hc.2.2.1.trans hf.2.2.2.2.2.2.1,
        hc.2.2.2.1.trans hf.2.2.2.2.2.2.2.1,
        hc.2.2.2.2.1.trans hf.2.2.2.2.2.2.2.2, hc.2.2.2.2.2⟩
  · -- plain ws:// branch
    rw [Except.ok.injEq] at h
    subst h
    have hf := configureTicketAuth_fields u p srv0
    exact ⟨hf.1, hf.2.1, hf.2.2.1, hf.2.2.2.1, hf.2.2.2.2.1,
      fun _ => ⟨hf.2.2.2.2.2.2.1, hf.2.2.2.2.2.2.2⟩⟩

/-- Helper: every failure of the server-certificate step carries the
exit code `ExitArgument`. -/
theorem configureServerCert_error_code (fs : Fs) (scf : String)
    (srv : Service) (c : Nat)
    (h : configureServerCert fs scf srv = .error c) : c = ExitArgument := by
  unfold configureServerCert at h
  split at h
  · exact Except.noConfusion h
  · split at h
    · rw [Except.error.injEq] at h
      exact h.symm
    · split at h
      · rw [Except.error.injEq] at h
        exact h.symm
      · split at h
        · rw [Except.error.injEq] at h
          exact h.symm
        · exact Except.noConfusion h

/-- Helper: under `wss://` with both client certificate and key flags
non-empty, a missing client certificate file — or a present certificate
with a missing key file — makes the TLS/authentication step exit with
`ExitArgument`, whatever the server-certificate configuration (a failing
server-certificate step also exits with `ExitArgument`). -/
theorem configureTLSAndAuth_clientCert_missing (fs : Fs)
    (u p ccf ckf scf : String) (srv0 : Service)
    (hwss : startsWithStr srv0.url "wss://" = true)
    (hccf : ccf ≠ "") (hckf : ckf ≠ "")
    (hfiles : fs.fileOK ccf = false ∨
      (fs.fileOK ccf = true ∧ fs.fileOK ckf = false)) :
    configureTLSAndAuth fs u p ccf ckf scf srv0 = .error ExitArgument := by
  unfold configureTLSAndAuth
  rw [if_pos hwss]
  cases hsc : configureServerCert fs scf { srv0 with useTLS := true } with
  | error c =>
    simp only [hsc]
    rw [configureServerCert_error_code fs scf _ c hsc]
  | ok srv2 =>
    simp only [hsc]
    unfold configureClientCert
    rw [if_neg (by simp [hccf, hckf])]
    rcases hfiles with hf | ⟨hf1, hf2⟩
    · rw [if_pos (by simp [hf])]
    · rw [if_neg (by simp [hf1]), if_pos (by simp [hf2])]

/-- Helper: the ping-configuration steps only touch the three ping
fields; they set `pingEnabled` to the flag value (the fresh service has
it enabled) and override the endpoint exactly when the flag value is
non-empty. -/
theorem applyPingConfig_fields (pe : Bool) (pef pif : String)
    (srv : Service) :
    (applyPingConfig pe pef pif srv).url = srv.url ∧
    (applyPingConfig pe pef pif srv).realm = srv.realm ∧
    (applyPingConfig pe pef pif srv).username = srv.username ∧
    (applyPingConfig pe pef pif srv).password = srv.password ∧
    (applyPingConfig pe pef pif srv).hasClientCert = srv.hasClientCert ∧
    (srv.pingEnabled = true →
      (applyPingConfig pe pef pif srv).pingEnabled = pe) ∧
    (applyPingConfig pe pef pif srv).pingEndpoint =
      (if pef ≠ "" then pef else srv.pingEndpoint) := by
  unfold applyPingConfig
  repeat' split
  all_goals simp_all

/-- Helper: every service returned by `New` carries the flag-else-env
resolved broker URL and realm, the ping-enable setting from flag or
environment presence, the resolved or default ping endpoint, and — when
no TLS client certificate is in use — the resolved username and
password. -/
theorem New_ok_shape (cfg : Config) (fl : Flags) (env : Env) (fs : Fs)
    (s : Service) (h : New cfg fl env fs = .ok s) :
    s.url = resolveFlag fl.brokerURL env.brokerURL ∧
    s.realm = resolveFlag fl.realm env.realm ∧
    s.pingEnabled = fl.pingEnable.getD env.pingEnabledSet ∧
    s.pingEndpoint =
      (if resolveFlag fl.pingEndpoint env.pingEndpoint ≠ ""
       then resolveFlag fl.pingEndpoint env.pingEndpoint
       else "ee.ping") ∧
    (s.hasClientCert = false →
      s.username = resolveFlag fl.user env.username ∧
      s.password = resolveFlag fl.password env.password) := by
  unfold New at h
  simp only [resolveFlag] at h ⊢
  split at h
  · exact Except.noConfusion h
  · split at h
    · exact Except.noConfusion h
    · split at h
      · exact Except.noConfusion h
      · split at h
        · exact Except.noConfusion h
        · split at h
          · exact Except.noConfusion h
          · have hf := configureTLSAndAuth_ok_fields _ _ _ _ _ _ _ _ h
            have hp := applyPingConfig_fields
              (fl.pingEnable.getD env.pingEnabledSet)
              (fl.pingEndpoint.getD env.pingEndpoint)
              (fl.pingInterval.getD env.pingInterval) (newBaseService cfg)
            refine ⟨hf.1, hf.2.1, ?_, ?_, hf.2.2.2.2.2⟩
            · rw [hf.2.2.1]
              exact hp.2.2.2.2.2.1 rfl
            · rw [hf.2.2.2.2.1]
              exact hp.2.2.2.2.2.2

/-- C1 counterexample: the `Config` consumed by the current `New`
carries no broker URL, realm, username or password, so no caller
default can take part in the resolution.  Where the claimed precedence
(flag, then environment, then caller default — `resolveWithCallerDefault`,
modelled from the spec wording) would produce a caller-supplied URL,
`New` run without flags and with an empty environment instead resolves
the URL to the empty string and exits with `ExitArgument`. -/
theorem c1_counterexample :
    resolveWithCallerDefault none "" "ws://caller.example" =
      "ws://caller.example" ∧
    New {} {} {} noFs = .error ExitArgument := by
  exact ⟨rfl, rfl⟩

/-- C1 (amended): for broker URL, realm, username and password, the
value `New` uses is the command-line flag when given, otherwise the
corresponding environment variable (`SERVICE_BROKER_URL`,
`SERVICE_REALM`, `SERVICE_USERNAME`, `SERVICE_PASSWORD`); the `Config`
argument contributes no fallback (it has no such fields).  The
username/password equations hold whenever no TLS client certificate is
in use (with one the credential fields are left empty). -/
theorem c1_flag_env_resolution :
    (∀ (v e : String), resolveFlag (some v) e = v) ∧
    (∀ e : String, resolveFlag none e = e) ∧
    (∀ (cfg : Config) (fl : Flags) (env : Env) (fs : Fs) (s : Service),
      New cfg fl env fs = .ok s →
      s.url = resolveFlag fl.brokerURL env.brokerURL ∧
      s.realm = resolveFlag fl.realm env.realm ∧
      (s.hasClientCert = false →
        s.username = resolveFlag fl.user env.username ∧
        s.password = resolveFlag fl.password env.password)) := by
  refine ⟨fun v e => rfl, fun e => rfl, ?_⟩
  intro cfg fl env fs s h
  have hs := New_ok_shape cfg fl env fs s h
  exact ⟨hs.1, hs.2.1, hs.2.2.2.2⟩

/-- Witness for C1 at `flTicket` (flags give URL, realm, user and
password; the environment is empty). -/
theorem c1_flag_env_resolution_witness :
    serviceTicket.url = "ws://b" ∧ serviceTicket.realm = "r" ∧
    serviceTicket.username = "alice" ∧ serviceTicket.password = "pw" := by
  have h := c1_flag_env_resolution.2.2 {} flTicket {} noFs serviceTicket rfl
  exact ⟨h.1, h.2.1, (h.2.2 rfl).1, (h.2.2 rfl).2⟩

/-- C6 counterexample: with a valid broker URL, realm and timeout but
the invalid duration string `bogus` as `--ping-interval`, `New` does not
terminate with `ExitArgument` — it succeeds and falls back to a ten
second ping interval. -/
theorem c6_counterexample :
    (New {} flBadPing {} noFs).toOption.map Service.pingInterval =
      some (10 * second) ∧
    (New {} flBadPing {} noFs).isOk = true := by
  exact ⟨rfl, rfl⟩

/-- C6 (amended): `New` exits with `ExitArgument` after logging when the
resolved broker URL is empty, when the resolved realm is empty, when the
`--connect-timeout` string does not parse, and when a named TLS
certificate or key file does not exist (the server certificate under
`wss://`; the client certificate, or the client key, when both client
cert and key are named under `wss://`).  An invalid `--ping-interval`
only triggers the ten-second fallback, and no serialization string is
parsed by `New` at all (serialization comes from the `Config` only). -/
theorem c6_exit_argument_amended :
    (∀ (cfg : Config) (fl : Flags) (env : Env) (fs : Fs),
      fl.version = false → logFormatValid env.logFormat = true →
      resolveFlag fl.brokerURL env.brokerURL = "" →
      New cfg fl env fs = .error ExitArgument) ∧
    (∀ (cfg : Config) (fl : Flags) (env : Env) (fs : Fs),
      fl.version = false → logFormatValid env.logFormat = true →
      resolveFlag fl.brokerURL env.brokerURL ≠ "" →
      resolveFlag fl.realm env.realm = "" →
      New cfg fl env fs = .error ExitArgument) ∧
    (∀ (cfg : Config) (fl : Flags) (env : Env) (fs : Fs),
      fl.version = false → logFormatValid env.logFormat = true →
      resolveFlag fl.brokerURL env.brokerURL ≠ "" →
      resolveFlag fl.realm env.realm ≠ "" →
      parseDuration (resolveFlag fl.connectTimeout env.connectTimeout) =
        none →
      New cfg fl env fs = .error ExitArgument) ∧
    (∀ (cfg : Config) (fl : Flags) (env : Env) (fs : Fs) (t : Nat),
      fl.version = false → logFormatValid env.logFormat = true →
      resolveFlag fl.brokerURL env.brokerURL ≠ "" →
      resolveFlag fl.realm env.realm ≠ "" →
      parseDuration (resolveFlag fl.connectTimeout env.connectTimeout) =
        some t →
      startsWithStr (resolveFlag fl.brokerURL env.brokerURL) "wss://" =
        true →
      resolveFlag fl.tlsServerCertFile env.tlsServerCert ≠ "" →
      fs.fileOK (resolveFlag fl.tlsServerCertFile env.tlsServerCert) =
        false →
      New cfg fl env fs = .error ExitArgument) ∧
    (∀ (cfg : Config) (fl : Flags) (env : Env) (fs : Fs) (t : Nat),
      fl.version = false → logFormatValid env.logFormat = true →
      resolveFlag fl.brokerURL env.brokerURL ≠ "" →
      resolveFlag fl.realm env.realm ≠ "" →
      parseDuration (resolveFlag fl.connectTimeout env.connectTimeout) =
        some t →
      startsWithStr (resolveFlag fl.brokerURL env.brokerURL) "wss://" =
        true →
      resolveFlag fl.tlsClientCertFile env.tlsClientCert ≠ "" →
      resolveFlag fl.tlsClientKeyFile env.tlsClientKey ≠ "" →
      fs.fileOK (resolveFlag fl.tlsClientCertFile env.tlsClientCert) =
        false →
      New cfg fl env fs = .error ExitArgument) ∧
    (∀ (cfg : Config) (fl : Flags) (env : Env) (fs : Fs) (t : Nat),
      fl.version = false → logFormatValid env.logFormat = true →
      resolveFlag fl.brokerURL env.brokerURL ≠ "" →
      resolveFlag fl.realm env.realm ≠ "" →
      parseDuration (resolveFlag fl.connectTimeout env.connectTimeout) =
        some t →
      startsWithStr (resolveFlag fl.brokerURL env.brokerURL) "wss://" =
        true →
      resolveFlag fl.tlsClientCertFile env.tlsClientCert ≠ "" →
      resolveFlag fl.tlsClientKeyFile env.tlsClientKey ≠ "" →
      fs.fileOK (resolveFlag fl.tlsClientCertFile env.tlsClientCert) =
        true →
      fs.fileOK (resolveFlag fl.tlsClientKeyFile env.tlsClientKey) =
        false →
      New cfg fl env fs = .error ExitArgument) := by
  refine ⟨?_, ?_, ?_, ?_, ?_, ?_⟩
  · intro cfg fl env fs hv hl hu
    simp only [resolveFlag] at hu
    simp [New, resolveFlag, setupLogger, hv, hl, hu]
  · intro cfg fl env fs hv hl hu hr
    simp only [resolveFlag] at hu hr
    simp [New, resolveFlag, setupLogger, hv, hl, hu, hr]
  · intro cfg fl env fs hv hl hu hr ht
    simp only [resolveFlag] at hu hr ht
    simp [New, resolveFlag, setupLogger, hv, hl, hu, hr, ht]
  · intro cfg fl env fs t hv hl hu hr ht hwss hscf hfile
    simp only [resolveFlag] at hu hr ht hwss hscf hfile
    simp [New, resolveFlag, setupLogger, configureTLSAndAuth,
      configureServerCert, hv, hl, hu, hr, ht, hwss, hscf, hfile]
  · intro cfg fl env fs t hv hl hu hr ht hwss hccf hckf hfile
    simp only [resolveFlag] at hu hr ht hwss hccf hckf hfile
    simp only [New, resolveFlag, setupLogger, hv, hl, hu, hr, ht]
    simp [hu, hr, ht]
    exact configureTLSAndAuth_clientCert_missing fs _ _ _ _ _ _
      hwss hccf hckf (Or.inl hfile)
  · intro cfg fl env fs t hv hl hu hr ht hwss hccf hckf hfc hfk
    simp only [resolveFlag] at hu hr ht hwss hccf hckf hfc hfk
    simp only [New, resolveFlag, setupLogger, hv, hl, hu, hr, ht]
    simp [hu, hr, ht]
    exact configureTLSAndAuth_clientCert_missing fs _ _ _ _ _ _
      hwss hccf hckf (Or.inr ⟨hfc, hfk⟩)

/-- Witness for C6: each of the six exit conditions at a concrete
input (missing server certificate, missing client certificate, and a
present client certificate with a missing client key). -/
theorem c6_exit_argument_amended_witness :
    New {} {} {} noFs = .error ExitArgument ∧
    New {} { brokerURL := some "ws://b" } {} noFs =
      .error ExitArgument ∧
    New {} { brokerURL := some "ws://b", realm := some "r" } {} noFs =
      .error ExitArgument ∧
    New {} { brokerURL := some "wss://b", realm := some "r",
             connectTimeout := some "1s",
             tlsServerCertFile := some "/sc.pem" } {} noFs =
      .error ExitArgument ∧
    New {} { brokerURL := some "wss://b", realm := some "r",
             connectTimeout := some "1s",
             tlsClientCertFile := some "/cc.pem",
             tlsClientKeyFile := some "/ck.pem" } {} noFs =
      .error ExitArgument ∧
    New {} { brokerURL := some "wss://b", realm := some "r",
             connectTimeout := some "1s",
             tlsClientCertFile := some "/cc.pem",
             tlsClientKeyFile := some "/ck.pem" } {} ccOnlyFs =
      .error ExitArgument := by
  refine ⟨?_, ?_, ?_, ?_, ?_, ?_⟩
  · exact c6_exit_argument_amended.1 {} {} {} noFs rfl rfl rfl
  · exact c6_exit_argument_amended.2.1 {} _ {} noFs rfl rfl
      (by decide) rfl
  · exact c6_exit_argument_amended.2.2.1 {} _ {} noFs rfl rfl
      (by decide) (by decide) rfl
  · exact c6_exit_argument_amended.2.2.2.1 {} _ {} noFs 1000000000
      rfl rfl (by decide) (by decide) rfl rfl (by decide) rfl
  · exact c6_exit_argument_amended.2.2.2.2.1 {} _ {} noFs 1000000000
      rfl rfl (by decide) (by decide) rfl rfl (by decide)
      (by decide) rfl
  · exact c6_exit_argument_amended.2.2.2.2.2 {} _ {} ccOnlyFs
      1000000000 rfl rfl (by decide) (by decide) rfl rfl (by decide)
      (by decide) rfl rfl

/-- C7 counterexample: the flags registered by the current `New` are not
the thirteen the claim lists; in particular no `--serialization` flag is
defined. -/
theorem c7_counterexample :
    newFlags.map FlagSpec.longName ≠ claimedFlagNames ∧
    "serialization" ∉ newFlags.map FlagSpec.longName := by
  exact ⟨by decide, by decide⟩

/-- C7 (amended): `New` defines exactly the twelve flags `--version`,
`--broker-url`, `--user`, `--password`, `--realm`,
`--tls-client-cert-file`, `--tls-client-key-file`,
`--tls-server-cert-file`, `--connect-timeout`, `--ping-enable`,
`--ping-endpoint` and `--ping-interval` — without `--serialization`,
which cannot be overridden at runtime — and the flags do override the
configuration (shown here for the ping endpoint and ping enable; the
URL, realm and credential overrides are the subject of C1). -/
theorem c7_flags_amended :
    newFlags.map FlagSpec.longName =
      ["version", "broker-url", "user", "password", "realm",
       "tls-client-cert-file", "tls-client-key-file",
       "tls-server-cert-file", "connect-timeout", "ping-enable",
       "ping-endpoint", "ping-interval"] ∧
    "serialization" ∉ newFlags.map FlagSpec.longName ∧
    (∀ (cfg : Config) (fl : Flags) (env : Env) (fs : Fs) (s : Service)
        (ep : String),
      New cfg fl env fs = .ok s → fl.pingEndpoint = some ep → ep ≠ "" →
      s.pingEndpoint = ep) ∧
    (∀ (cfg : Config) (fl : Flags) (env : Env) (fs : Fs) (s : Service)
        (b : Bool),
      New cfg fl env fs = .ok s → fl.pingEnable = some b →
      s.pingEnabled = b) := by
  refine ⟨by decide, by decide, ?_, ?_⟩
  · intro cfg fl env fs s ep h hep hne
    have hs := New_ok_shape cfg fl env fs s h
    rw [hs.2.2.2.1, hep]
    simp [resolveFlag, hne]
  · intro cfg fl env fs s b h hb
    have hs := New_ok_shape cfg fl env fs s h
    rw [hs.2.2.1, hb]
    rfl

/-- Witness for C7 at `flPingOverride`: the flags override the ping
endpoint and the ping enable setting. -/
theorem c7_flags_amended_witness :
    servicePingOverride.pingEndpoint = "my.ping" ∧
    servicePingOverride.pingEnabled = true := by
  constructor
  · exact c7_flags_amended.2.2.1 {} flPingOverride {} noFs
      servicePingOverride "my.ping" rfl rfl (by decide)
  · exact c7_flags_amended.2.2.2 {} flPingOverride {} noFs
      servicePingOverride true rfl rfl

end ServiceLib
